/-
Verification development for the UPSC-Interviewer repository.

The repository contains several near-duplicate server variants:
  * an Express server (src/server.js, first document): in-memory `sessions` Map,
    endpoints /api/chat, /api/session/init, /api/session/track,
    /api/session/delete, /api/session/report;
  * a serverless handler (src/unnamed/part_000, first document, called "v1"
    below): Redis-backed sessions, a 14-entry topic catalog, deterministic
    first-uncovered topic selection, 404 on missing sessions in /api/chat;
  * a second serverless handler (src/unnamed/part_000, second document, "v2"):
    Redis-backed but with exactly the same /api/chat conversation-state logic
    and 10-entry topic catalog as the Express server, and a complete
    7-field conversationState written by /api/session/init.

The Express and v2 variants share one state-transition function (`chatStep`
below); they differ only in the initial conversation state their
/api/session/init writes (`initConvStateExpress` omits fields, `initConvStateV2`
is complete) and in session lookup.  The v1 variant is embedded separately
(`chatStep1`).

JavaScript numeric quirks that matter are modelled explicitly: a field that the
Express /api/session/init never writes is `undefined`; `undefined >= 10` is
`false` and `undefined++` stores `NaN`, and `NaN >= 10` is again `false`.  The
counter `questionsOnCurrentTopic` is therefore embedded as `Option Nat`, with
`none` standing for undefined-or-NaN (`jsGe`, `jsIncr` below reproduce the
JavaScript comparisons and increments on that representation).
-/
import Mathlib

set_option maxRecDepth 4000

/-- One choice of the completion-shaped JSON response `{choices:[{message:{role,
content}, finish_reason}]}` returned by /api/chat. -/
structure Choice where
  role : String
  content : String
  finishReason : String
deriving Repr, DecidableEq

/-- Outcome of one /api/chat call: either the fixed closing response is
returned directly (server.js lines 226-234), or the handler proceeds to
contact the question-generation gateway (`asked`). -/
inductive ChatResult
  | concluded (c : Choice)
  | asked
deriving Repr, DecidableEq

/-- The fixed closing response of the conclusion branch (server.js line 230). -/
def closingChoice : Choice :=
  { role := "assistant"
    content := "Your interview is over, Tanya. Thank you."
    finishReason := "stop" }

/-- server.js line 213 / part_000 line 236. -/
def QUESTION_LIMIT : Nat := 70

/-- server.js line 214 / part_000 line 237. -/
def QUESTIONS_PER_TOPIC : Nat := 10

/-- Topic catalog of the Express and v2 /api/chat handlers
(server.js lines 238-249). -/
def TOPICS : List String :=
  ["aspirations", "international_relations", "economics", "literature_philosophy",
   "social_issues", "administration", "ethics", "current_affairs_india",
   "extracurriculars", "personal_background"]

/-- Conversation state of the Express and v2 /api/chat handlers (server.js
lines 186-194).  `questionsOnCurrentTopic` is `Option Nat`: `none` models the
JavaScript values undefined and NaN (see the header comment). -/
structure ConvState where
  hasGreeted : Bool
  askedIntroduction : Bool
  questionCount : Nat
  topicsDiscussed : List String
  currentTopic : Option String
  questionsOnCurrentTopic : Option Nat
  shouldConclude : Bool
deriving Repr, DecidableEq

/-- JavaScript `x >= k` on a possibly-undefined/NaN numeric field:
false when the value is not an actual number. -/
def jsGe (x : Option Nat) (k : Nat) : Bool :=
  match x with
  | none => false
  | some n => decide (k ≤ n)

/-- JavaScript `x++` on a possibly-undefined/NaN numeric field:
`undefined++` and `NaN++` store NaN (modelled `none`). -/
def jsIncr (x : Option Nat) : Option Nat :=
  x.map (· + 1)

/-- The expression `topicsDiscussed.filter(asked => asked === t).length`
(server.js line 258). -/
def count (t : String) (l : List String) : Nat :=
  (l.filter (fun x => x == t)).length

/-- server.js lines 257-260: topics asked fewer than 2 rotations. -/
def availableTopics (s : ConvState) : List String :=
  TOPICS.filter (fun t => decide (count t s.topicsDiscussed < 2))

/-- server.js lines 252-268: the body of the topic-switch branch.  The counter
is reset to 0 first (line 254); a random index into `availableTopics` (or the
whole catalog if it is empty) picks the next topic.  `Math.floor(Math.random()
* n)` is an arbitrary index below `n`, modelled as `rand % n`. -/
def switchTopic (s : ConvState) (rand : Nat) : ConvState :=
  if 0 < (availableTopics s).length then
    { s with
        questionsOnCurrentTopic := some 0
        currentTopic := some ((availableTopics s).getD (rand % (availableTopics s).length) "") }
  else
    { s with
        questionsOnCurrentTopic := some 0
        currentTopic := some (TOPICS.getD (rand % TOPICS.length) "") }

/-- server.js lines 272-274: `if (!conversationState.currentTopic)
currentTopic = 'aspirations'`. -/
def withDefaultTopic (s : ConvState) : ConvState :=
  if s.currentTopic.isNone then { s with currentTopic := some "aspirations" } else s

/-- server.js lines 252-274: switch the topic if the per-topic counter has hit
the limit (an undefined/NaN counter never does), then default to
"aspirations" if no topic is set. -/
def topicPhase (s : ConvState) (rand : Nat) : ConvState :=
  withDefaultTopic
    (if jsGe s.questionsOnCurrentTopic QUESTIONS_PER_TOPIC then switchTopic s rand else s)

/-- server.js lines 275-276: `topicsDiscussed.push(currentTopic);
questionsOnCurrentTopic++`.  This runs on every question-issuing call. -/
def trackPhase (s : ConvState) : ConvState :=
  { s with
      topicsDiscussed := s.topicsDiscussed ++ [s.currentTopic.getD ""]
      questionsOnCurrentTopic := jsIncr s.questionsOnCurrentTopic }

/-- server.js lines 281-296: the greeting branch of the context-message
composition sets `hasGreeted` and `askedIntroduction` on the first call. -/
def greetPhase (s : ConvState) : ConvState :=
  if s.hasGreeted then s else { s with hasGreeted := true, askedIntroduction := true }

/-- The /api/chat conversation-state transition of the Express and v2
variants (server.js lines 212-416).  The conclusion check (lines 216-235) runs
first: at or beyond the limit it marks `shouldConclude`, leaves everything
else untouched, and returns the fixed closing response without running any
topic logic and without contacting the gateway.  Otherwise the topic, tracking
and greeting phases run and `questionCount` is incremented (line 411); the
state is persisted before the gateway is contacted (lines 414-416 precede the
fetch at line 426), so this transition is exact even when the gateway fails. -/
def chatStep (s : ConvState) (rand : Nat) : ConvState × ChatResult :=
  if QUESTION_LIMIT ≤ s.questionCount then
    ({ s with shouldConclude := true }, .concluded closingChoice)
  else
    ({ greetPhase (trackPhase (topicPhase s rand)) with
        questionCount := (greetPhase (trackPhase (topicPhase s rand))).questionCount + 1 },
     .asked)

/-- The complete default conversation state written inline by the /api/chat
handlers (server.js lines 186-194) and by the v2 /api/session/init
(part_000 lines 840-848). -/
def initConvStateV2 : ConvState :=
  { hasGreeted := false
    askedIntroduction := false
    questionCount := 0
    topicsDiscussed := []
    currentTopic := none
    questionsOnCurrentTopic := some 0
    shouldConclude := false }

/-- The conversation state written by the Express /api/session/init
(server.js lines 483-489): `currentTopic`, `questionsOnCurrentTopic` and
`shouldConclude` are never written, so they are undefined (the extra field
`askedWhyCivilServices` plays no role in /api/chat and is omitted).  The
undefined counter is `none`. -/
def initConvStateExpress : ConvState :=
  { hasGreeted := false
    askedIntroduction := false
    questionCount := 0
    topicsDiscussed := []
    currentTopic := none
    questionsOnCurrentTopic := none
    shouldConclude := false }

/-- Iterated /api/chat calls on one session, one arbitrary random draw per
call. -/
def runChat (s : ConvState) : List Nat → ConvState
  | [] => s
  | r :: rs => runChat (chatStep s r).1 rs

/-- Topic catalog of the v1 serverless /api/chat branch
(part_000 lines 256-457, the `name` fields). -/
def INTERVIEW_TOPICS : List String :=
  ["IFS Aspiration & Foreign Policy",
   "International Relations & Diplomacy",
   "Economics & Development",
   "Governance & Public Administration",
   "Social Issues & Welfare",
   "Education Policy & Reforms",
   "Environment & Climate Change",
   "Technology, AI & Digital Governance",
   "Ethics & Integrity in Civil Service",
   "Literature, Philosophy & Governance",
   "ARTIBUS & Communication Skills",
   "Delhi & East Delhi Context",
   "Security, Defence & Strategic Issues",
   "Multilateralism & Global Governance"]

/-- Conversation state of the v1 serverless /api/chat branch (part_000 lines
229-234).  Note: this record has no `shouldConclude` field at all. -/
structure ConvState1 where
  questionCount : Nat
  currentTopic : Option String
  questionsOnCurrentTopic : Nat
  topicsCovered : List String
deriving Repr, DecidableEq

/-- part_000 line 467: catalog topics not yet in `topicsCovered`. -/
def uncoveredTopics (s : ConvState1) : List String :=
  INTERVIEW_TOPICS.filter (fun t => !(s.topicsCovered.contains t))

/-- part_000 lines 469-475: take the first uncovered topic in catalog order,
or a random catalog topic once all are covered, resetting the per-topic
counter either way. -/
def switchTopic1Pick (s : ConvState1) (rand : Nat) : ConvState1 :=
  if 0 < (uncoveredTopics s).length then
    { s with currentTopic := some ((uncoveredTopics s).getD 0 ""), questionsOnCurrentTopic := 0 }
  else
    { s with
        currentTopic := some (INTERVIEW_TOPICS.getD (rand % INTERVIEW_TOPICS.length) "")
        questionsOnCurrentTopic := 0 }

/-- part_000 lines 461-480: the full switch block, which after picking appends
the chosen topic to `topicsCovered` only if it is not already there
(lines 477-479). -/
def switchTopic1 (s : ConvState1) (rand : Nat) : ConvState1 :=
  if (switchTopic1Pick s rand).topicsCovered.contains
      ((switchTopic1Pick s rand).currentTopic.getD "") then
    switchTopic1Pick s rand
  else
    { switchTopic1Pick s rand with
        topicsCovered := (switchTopic1Pick s rand).topicsCovered ++
          [(switchTopic1Pick s rand).currentTopic.getD ""] }

/-- part_000 line 461: switch the topic when none is set or the per-topic
counter has reached the limit. -/
def topicPhase1 (s : ConvState1) (rand : Nat) : ConvState1 :=
  if s.currentTopic = none ∨ QUESTIONS_PER_TOPIC ≤ s.questionsOnCurrentTopic then
    switchTopic1 s rand
  else s

/-- The /api/chat conversation-state transition of the v1 serverless branch
(part_000 lines 236-541).  The conclusion check (lines 240-253) persists the
loaded state and returns the fixed closing response; note that nothing is
marked on the state (the v1 state has no `shouldConclude` field).  Otherwise a
switch runs when no topic is set or the per-topic counter reached the limit
(line 461), and both counters are incremented (lines 503-504); the state is
persisted (line 506) before the gateway fetch (line 515). -/
def chatStep1 (s : ConvState1) (rand : Nat) : ConvState1 × ChatResult :=
  if QUESTION_LIMIT ≤ s.questionCount then
    (s, .concluded closingChoice)
  else
    ({ topicPhase1 s rand with
        questionCount := (topicPhase1 s rand).questionCount + 1
        questionsOnCurrentTopic := (topicPhase1 s rand).questionsOnCurrentTopic + 1 },
     .asked)

/-- The conversation state written by the v1 /api/session/init (part_000
lines 126-131) and used as the default for a session without one (lines
229-234). -/
def initConvState1 : ConvState1 :=
  { questionCount := 0
    currentTopic := none
    questionsOnCurrentTopic := 0
    topicsCovered := [] }

/-- Iterated v1 /api/chat calls on one session. -/
def runChat1 (s : ConvState1) : List Nat → ConvState1
  | [] => s
  | r :: rs => runChat1 (chatStep1 s r).1 rs

/-- The session record of the Express server (server.js lines 476-490): two
interests, accumulated metrics (response payloads are opaque, modelled as
`Nat`; the unused `conversationHistory` is omitted) and the conversation
state, which /api/session/init writes only partially. -/
structure Session where
  interests : List String
  responses : List Nat
  interruptions : Nat
  conversationState : Option ConvState
deriving Repr, DecidableEq

/-- The session record of the v1 serverless variant (part_000 lines 120-132);
its metrics carry no interruption counter. -/
structure Session1 where
  interests : List String
  responses : List Nat
  conversationState : Option ConvState1
deriving Repr, DecidableEq

/-- The session store: the in-memory `sessions` Map of the Express server, or
the Redis keyspace of the serverless variants, as an association list from
session id to session record. -/
abbrev SessionStore (α : Type) : Type := List (String × α)

/-- `sessions.get(id)` / `getSession(id)`. -/
def storeGet {α : Type} (st : SessionStore α) (id : String) : Option α :=
  (st.find? (fun p => p.1 == id)).map (fun p => p.2)

/-- `sessions.set(id, s)` / `setSession(id, s)`: overwrite or insert. -/
def storeSet {α : Type} (st : SessionStore α) (id : String) (s : α) : SessionStore α :=
  if (st.find? (fun p => p.1 == id)).isSome then
    st.map (fun p => if p.1 == id then (id, s) else p)
  else
    st ++ [(id, s)]

/-- `sessions.delete(id)` / `deleteSession(id)`. -/
def storeDel {α : Type} (st : SessionStore α) (id : String) : SessionStore α :=
  st.filter (fun p => !(p.1 == id))

/-- Result of a JSON endpoint, with only the structure the claims need. -/
inductive ApiResult
  | notFound
  | ok
  | chat (r : ChatResult)
deriving Repr, DecidableEq

/-- The Express /api/chat handler (server.js lines 181-454), also the v2
serverless /api/chat branch (part_000 lines 938-1215), at store level.  There
is no not-found check: a session id that does not resolve is served from the
inline default state and nothing is persisted (lines 196-210, 414-416).  The
state is persisted before the gateway call, so the store effect below is exact
regardless of the gateway outcome; `.chat .asked` records that the handler
went on to contact the question-generation gateway. -/
def chatExpressHandler (st : SessionStore Session) (sessionId : String) (rand : Nat) :
    SessionStore Session × ApiResult :=
  match storeGet st sessionId with
  | some sess =>
      (storeSet st sessionId
        { sess with conversationState := some (chatStep (sess.conversationState.getD initConvStateV2) rand).1 },
       .chat (chatStep (sess.conversationState.getD initConvStateV2) rand).2)
  | none => (st, .chat (chatStep initConvStateV2 rand).2)

/-- The v1 serverless /api/chat branch (part_000 lines 221-253, 503-506) at
store level: a session id that does not resolve returns 404 with nothing
mutated (lines 224-227). -/
def chat1Handler (st : SessionStore Session1) (sessionId : String) (rand : Nat) :
    SessionStore Session1 × ApiResult :=
  match storeGet st sessionId with
  | none => (st, .notFound)
  | some sess =>
      (storeSet st sessionId
        { sess with conversationState := some (chatStep1 (sess.conversationState.getD initConvState1) rand).1 },
       .chat (chatStep1 (sess.conversationState.getD initConvState1) rand).2)

/-- The Express /api/session/track handler (server.js lines 499-514). -/
def trackExpressHandler (st : SessionStore Session) (sessionId : String)
    (metrics : Nat) (interruptionDetected : Bool) : SessionStore Session × ApiResult :=
  match storeGet st sessionId with
  | none => (st, .notFound)
  | some sess =>
      (storeSet st sessionId
        { sess with
            responses := sess.responses ++ [metrics]
            interruptions := sess.interruptions + (if interruptionDetected then 1 else 0) },
       .ok)

/-- The v1 serverless /api/session/track branch (part_000 lines 545-557). -/
def track1Handler (st : SessionStore Session1) (sessionId : String)
    (metrics : Nat) : SessionStore Session1 × ApiResult :=
  match storeGet st sessionId with
  | none => (st, .notFound)
  | some sess =>
      (storeSet st sessionId { sess with responses := sess.responses ++ [metrics] }, .ok)

/-- A JSON value, as produced by a successful `JSON.parse` inside the report
handlers (server.js line 619 / part_000 line 660).  This is the type of the
`analysis` variable in the code: it holds whatever `JSON.parse` returned — of
the expected critique shape or not — or the hardcoded fallback object. -/
inductive JsonValue
  | null
  | bool (b : Bool)
  | num (n : Int)
  | str (s : String)
  | arr (elems : List JsonValue)
  | obj (fields : List (String × JsonValue))
deriving Repr

/-- Field lookup in a JSON object. -/
def jGet (fields : List (String × JsonValue)) (k : String) : Option JsonValue :=
  (fields.find? (fun p => p.1 == k)).map (fun p => p.2)

/-- Is this JSON value a string? -/
def jIsStr : JsonValue → Bool
  | .str _ => true
  | _ => false

/-- Is this JSON value a number? -/
def jIsNum : JsonValue → Bool
  | .num _ => true
  | _ => false

/-- Is this JSON value an array of strings? -/
def jIsStrArr : JsonValue → Bool
  | .arr xs => xs.all jIsStr
  | _ => false

/-- One scored category of the critique: an object with a numeric `score` and
a string `feedback` (the shape the evaluator is instructed to emit,
server.js lines 570-577). -/
def jIsScoreEntry (j : JsonValue) : Bool :=
  match j with
  | .obj fs => ((jGet fs "score").any jIsNum) && ((jGet fs "feedback").any jIsStr)
  | _ => false

/-- The expected critique shape, exactly as the report prompt specifies it
(server.js lines 569-587): a `scores` object with the five scored categories
content, communication, confidence, knowledge and etiquette; string arrays
`strengths` and `improvements`; a string `overall`; and a `detailedNotes`
object with the four string fields responseLengths, relevance, depth and
structure. -/
def hasCritiqueShape (j : JsonValue) : Bool :=
  match j with
  | .obj fs =>
      (match jGet fs "scores" with
       | some (.obj ss) =>
           ((jGet ss "content").any jIsScoreEntry) &&
           ((jGet ss "communication").any jIsScoreEntry) &&
           ((jGet ss "confidence").any jIsScoreEntry) &&
           ((jGet ss "knowledge").any jIsScoreEntry) &&
           ((jGet ss "etiquette").any jIsScoreEntry)
       | _ => false) &&
      ((jGet fs "strengths").any jIsStrArr) &&
      ((jGet fs "improvements").any jIsStrArr) &&
      ((jGet fs "overall").any jIsStr) &&
      (match jGet fs "detailedNotes" with
       | some (.obj ds) =>
           ((jGet ds "responseLengths").any jIsStr) &&
           ((jGet ds "relevance").any jIsStr) &&
           ((jGet ds "depth").any jIsStr) &&
           ((jGet ds "structure").any jIsStr)
       | _ => false)
  | _ => false

/-- The hardcoded fallback critique of /api/session/report as a JSON value,
character for character (server.js lines 623-648 and identically part_000
lines 664-689). -/
def fallbackAnalysis : JsonValue :=
  .obj
    [("scores", .obj
        [("content", .obj [("score", .num 6),
           ("feedback", .str "Responses need more depth. Provide specific examples and data to support claims. Too generic.")]),
         ("communication", .obj [("score", .num 6),
           ("feedback", .str "Work on being more concise. Several responses were unnecessarily lengthy.")]),
         ("confidence", .obj [("score", .num 7),
           ("feedback", .str "Generally composed but avoid filler words. Practice speaking with more conviction.")]),
         ("knowledge", .obj [("score", .num 6),
           ("feedback", .str "Surface-level understanding evident. Study your optional subject more thoroughly.")]),
         ("etiquette", .obj [("score", .num 7),
           ("feedback", .str "Professional but could be more engaged. Eye contact and body language matter.")])]),
     ("strengths", .arr
        [.str "Maintained professional demeanor",
         .str "Attempted to answer all questions"]),
     ("improvements", .arr
        [.str "Responses lack specific examples - every answer needs concrete data/cases",
         .str "Too verbose - practice 2-3 minute responses maximum",
         .str "Insufficient depth on core topics - shows gaps in preparation",
         .str "Avoid generic statements - board wants specifics, not platitudes"]),
     ("overall", .str "This performance would likely not clear the UPSC personality test. The board expects depth, precision, and evidence-based responses. Most answers were generic and lacked the analytical rigor needed. Significant improvement required in content depth and response structure."),
     ("detailedNotes", .obj
        [("responseLengths", .str "Several responses exceeded optimal length without adding value"),
         ("relevance", .str "Stayed mostly on topic but often gave generic answers instead of specific analysis"),
         ("depth", .str "Surface-level responses dominant. Need to demonstrate deeper understanding"),
         ("structure", .str "Responses lack clear structure. Use framework: claim → evidence → implication")])]

/-- The markdown code-fence stripping applied to the raw evaluator text before
JSON parsing (server.js line 618): remove occurrences of three backticks
followed by `json` and an optional newline, remove remaining three-backtick
runs, then trim. -/
def stripFences (t : String) : String :=
  ((((t.replace "```json\n" "").replace "```json" "").replace "```\n" "").replace "```" "").trim

/-- Result of /api/session/report, with only the structure the claims need:
the returned `analysis` is a raw JSON value (parsed or fallback). -/
inductive ReportResult
  | notFound
  | err (code : Nat)
  | ok (analysis : JsonValue) (totalResponses : Nat)
deriving Repr

/-- The Express /api/session/report handler (server.js lines 533-664) at store
level.  The evaluation-gateway outcome is an input: `.error code` for a
non-success status or thrown error (caught at line 660, returning 500 with the
store untouched, before any delete); `.ok text` for a success whose body is
`text`.  The try block at lines 616-620 is abstracted as a `parse` function on
the fence-stripped text: `none` models a throw anywhere inside the try (the
choices/message/content access failing, or `JSON.parse` rejecting the text),
which is the only path that substitutes the hardcoded fallback (lines
621-649); `some j` models `JSON.parse` succeeding with value `j`, which the
code assigns to `analysis` and returns to the caller verbatim — whether or not
`j` has the expected critique shape.  On every critique-returning path the
session is deleted (line 651) and the critique returned with the response
count. -/
def reportExpressHandler (st : SessionStore Session) (sessionId : String)
    (gateway : Except Nat String) (parse : String → Option JsonValue) :
    SessionStore Session × ReportResult :=
  match storeGet st sessionId with
  | none => (st, .notFound)
  | some sess =>
      match gateway with
      | .error code => (st, .err code)
      | .ok text =>
          (storeDel st sessionId,
           .ok ((parse (stripFences text)).getD fallbackAnalysis) sess.responses.length)

/-- The v1 serverless /api/session/report branch (part_000 lines 574-704) at
store level; identical structure to the Express handler (404 at lines 577-580,
catch at lines 701-704 before the delete at line 692), with the same `parse`
abstraction: only a throw inside the inner try (lines 657-661) substitutes
the fallback, while any successfully parsed JSON value is returned to the
caller unchanged, of the expected shape or not. -/
def report1Handler (st : SessionStore Session1) (sessionId : String)
    (gateway : Except Nat String) (parse : String → Option JsonValue) :
    SessionStore Session1 × ReportResult :=
  match storeGet st sessionId with
  | none => (st, .notFound)
  | some sess =>
      match gateway with
      | .error code => (st, .err code)
      | .ok text =>
          (storeDel st sessionId,
           .ok ((parse (stripFences text)).getD fallbackAnalysis) sess.responses.length)

theorem jsGe_eq_true {x : Option Nat} {k : Nat} (h : jsGe x k = true) :
    ∃ n, x = some n ∧ k ≤ n := by
  cases x with
  | none => simp [jsGe] at h
  | some n => exact ⟨n, rfl, by simpa [jsGe] using h⟩

theorem count_nil (t : String) : count t [] = 0 := rfl

theorem count_append_single (t c : String) (l : List String) :
    count t (l ++ [c]) = if c = t then count t l + 1 else count t l := by
  by_cases h : c = t <;>
    simp [count, List.filter_append, List.filter_cons, h]

theorem getD_mem {l : List String} {n : Nat} (h : n < l.length) (d : String) :
    l.getD n d ∈ l := by
  induction l generalizing n with
  | nil => simp at h
  | cons a as ih =>
    cases n with
    | zero => simp [List.getD]
    | succ m =>
      have hm : m < as.length := by simpa using h
      simpa [List.getD] using Or.inr (ih hm)

theorem switchTopic_topicsDiscussed (s : ConvState) (r : Nat) :
    (switchTopic s r).topicsDiscussed = s.topicsDiscussed := by
  unfold switchTopic; split <;> rfl

theorem switchTopic_counter (s : ConvState) (r : Nat) :
    (switchTopic s r).questionsOnCurrentTopic = some 0 := by
  unfold switchTopic; split <;> rfl

theorem switchTopic_questionCount (s : ConvState) (r : Nat) :
    (switchTopic s r).questionCount = s.questionCount := by
  unfold switchTopic; split <;> rfl

theorem switchTopic_isSome (s : ConvState) (r : Nat) :
    ∃ c, (switchTopic s r).currentTopic = some c := by
  unfold switchTopic; split
  · exact ⟨_, rfl⟩
  · exact ⟨_, rfl⟩

theorem withDefaultTopic_of_some (s : ConvState) (c : String) (h : s.currentTopic = some c) :
    withDefaultTopic s = s := by
  simp [withDefaultTopic, h]

theorem withDefaultTopic_of_none (s : ConvState) (h : s.currentTopic = none) :
    withDefaultTopic s = { s with currentTopic := some "aspirations" } := by
  simp [withDefaultTopic, h]

theorem withDefaultTopic_isSome (s : ConvState) :
    ∃ c, (withDefaultTopic s).currentTopic = some c := by
  cases h : s.currentTopic with
  | none => exact ⟨"aspirations", by simp [withDefaultTopic, h]⟩
  | some c => exact ⟨c, by simp [withDefaultTopic, h]⟩

theorem topicPhase_of_switch (s : ConvState) (r : Nat)
    (hq : jsGe s.questionsOnCurrentTopic QUESTIONS_PER_TOPIC = true) :
    topicPhase s r = switchTopic s r := by
  obtain ⟨c, hc⟩ := switchTopic_isSome s r
  unfold topicPhase
  rw [hq, if_pos rfl]
  exact withDefaultTopic_of_some _ c hc

theorem topicPhase_of_noswitch (s : ConvState) (r : Nat)
    (hq : jsGe s.questionsOnCurrentTopic QUESTIONS_PER_TOPIC = false) :
    topicPhase s r = withDefaultTopic s := by
  unfold topicPhase
  rw [hq]
  rfl

theorem topicPhase_isSome (s : ConvState) (r : Nat) :
    ∃ c, (topicPhase s r).currentTopic = some c := by
  unfold topicPhase
  cases hq : jsGe s.questionsOnCurrentTopic QUESTIONS_PER_TOPIC
  · exact withDefaultTopic_isSome s
  · exact withDefaultTopic_isSome (switchTopic s r)

theorem greetPhase_core (s : ConvState) :
    (greetPhase s).questionCount = s.questionCount ∧
    (greetPhase s).topicsDiscussed = s.topicsDiscussed ∧
    (greetPhase s).currentTopic = s.currentTopic ∧
    (greetPhase s).questionsOnCurrentTopic = s.questionsOnCurrentTopic := by
  unfold greetPhase; split <;> exact ⟨rfl, rfl, rfl, rfl⟩

theorem chatStep_conclude (s : ConvState) (r : Nat) (h : QUESTION_LIMIT ≤ s.questionCount) :
    chatStep s r = ({ s with shouldConclude := true }, .concluded closingChoice) := by
  unfold chatStep; rw [if_pos h]

theorem chatStep_go (s : ConvState) (r : Nat) (h : s.questionCount < QUESTION_LIMIT) :
    chatStep s r =
      ({ greetPhase (trackPhase (topicPhase s r)) with
          questionCount := (greetPhase (trackPhase (topicPhase s r))).questionCount + 1 },
       .asked) := by
  unfold chatStep; rw [if_neg (Nat.not_le.mpr h)]

theorem chatStep1_conclude (s : ConvState1) (r : Nat) (h : QUESTION_LIMIT ≤ s.questionCount) :
    chatStep1 s r = (s, .concluded closingChoice) := by
  unfold chatStep1; rw [if_pos h]

theorem chatStep1_go (s : ConvState1) (r : Nat) (h : s.questionCount < QUESTION_LIMIT) :
    chatStep1 s r =
      ({ topicPhase1 s r with
          questionCount := (topicPhase1 s r).questionCount + 1
          questionsOnCurrentTopic := (topicPhase1 s r).questionsOnCurrentTopic + 1 },
       .asked) := by
  unfold chatStep1; rw [if_neg (Nat.not_le.mpr h)]

theorem topicPhase_questionCount (s : ConvState) (r : Nat) :
    (topicPhase s r).questionCount = s.questionCount := by
  have hw : ∀ u : ConvState, (withDefaultTopic u).questionCount = u.questionCount := by
    intro u; unfold withDefaultTopic; split <;> rfl
  unfold topicPhase
  cases hq : jsGe s.questionsOnCurrentTopic QUESTIONS_PER_TOPIC
  · rw [if_neg (by simp : ¬ (false = true))]; exact hw s
  · rw [if_pos rfl]; rw [hw]; exact switchTopic_questionCount s r

theorem chatStep_count (s : ConvState) (r : Nat) :
    (chatStep s r).1.questionCount =
      if s.questionCount < QUESTION_LIMIT then s.questionCount + 1
      else s.questionCount := by
  by_cases h : QUESTION_LIMIT ≤ s.questionCount
  · rw [chatStep_conclude s r h, if_neg (Nat.not_lt.mpr h)]
  · have hlt := Nat.lt_of_not_le h
    rw [chatStep_go s r hlt, if_pos hlt]
    show (greetPhase (trackPhase (topicPhase s r))).questionCount + 1 = s.questionCount + 1
    rw [(greetPhase_core _).1]
    show (topicPhase s r).questionCount + 1 = s.questionCount + 1
    rw [topicPhase_questionCount]

theorem switchTopic1Pick_questionCount (s : ConvState1) (r : Nat) :
    (switchTopic1Pick s r).questionCount = s.questionCount := by
  unfold switchTopic1Pick; split <;> rfl

theorem switchTopic1_questionCount (s : ConvState1) (r : Nat) :
    (switchTopic1 s r).questionCount = s.questionCount := by
  unfold switchTopic1; split
  · exact switchTopic1Pick_questionCount s r
  · show (switchTopic1Pick s r).questionCount = s.questionCount
    exact switchTopic1Pick_questionCount s r

theorem topicPhase1_questionCount (s : ConvState1) (r : Nat) :
    (topicPhase1 s r).questionCount = s.questionCount := by
  unfold topicPhase1; split
  · exact switchTopic1_questionCount s r
  · rfl

theorem chatStep1_count (s : ConvState1) (r : Nat) :
    (chatStep1 s r).1.questionCount =
      if s.questionCount < QUESTION_LIMIT then s.questionCount + 1
      else s.questionCount := by
  by_cases h : QUESTION_LIMIT ≤ s.questionCount
  · rw [chatStep1_conclude s r h, if_neg (Nat.not_lt.mpr h)]
  · have hlt := Nat.lt_of_not_le h
    rw [chatStep1_go s r hlt, if_pos hlt]
    show (topicPhase1 s r).questionCount + 1 = s.questionCount + 1
    rw [topicPhase1_questionCount]

theorem runChat_questionCount (s : ConvState) (l : List Nat)
    (h : s.questionCount ≤ QUESTION_LIMIT) :
    (runChat s l).questionCount = min (s.questionCount + l.length) QUESTION_LIMIT := by
  induction l generalizing s with
  | nil => simp [runChat]; omega
  | cons r rs ih =>
    have hstep := chatStep_count s r
    by_cases hlt : s.questionCount < QUESTION_LIMIT
    · rw [if_pos hlt] at hstep
      show (runChat (chatStep s r).1 rs).questionCount = _
      rw [ih _ (by rw [hstep]; omega), hstep]
      simp [List.length_cons]
      omega
    · rw [if_neg hlt] at hstep
      show (runChat (chatStep s r).1 rs).questionCount = _
      rw [ih _ (by rw [hstep]; exact h), hstep]
      simp [List.length_cons]
      omega

theorem runChat1_questionCount (s : ConvState1) (l : List Nat)
    (h : s.questionCount ≤ QUESTION_LIMIT) :
    (runChat1 s l).questionCount = min (s.questionCount + l.length) QUESTION_LIMIT := by
  induction l generalizing s with
  | nil => simp [runChat1]; omega
  | cons r rs ih =>
    have hstep := chatStep1_count s r
    by_cases hlt : s.questionCount < QUESTION_LIMIT
    · rw [if_pos hlt] at hstep
      show (runChat1 (chatStep1 s r).1 rs).questionCount = _
      rw [ih _ (by rw [hstep]; omega), hstep]
      simp [List.length_cons]
      omega
    · rw [if_neg hlt] at hstep
      show (runChat1 (chatStep1 s r).1 rs).questionCount = _
      rw [ih _ (by rw [hstep]; exact h), hstep]
      simp [List.length_cons]
      omega

/-- Reachability invariant of the Express/v2 conversation state: a topic that
occurs exactly once in the history must be the current topic; a numeric
per-topic counter is bounded by the history count of the current topic; and
before any topic is active the history is empty and the counter is 0 or
undefined. -/
def ChatInv (s : ConvState) : Prop :=
  (∀ t, count t s.topicsDiscussed = 1 → s.currentTopic = some t) ∧
  (∀ q c, s.questionsOnCurrentTopic = some q → s.currentTopic = some c →
      q ≤ count c s.topicsDiscussed) ∧
  (s.currentTopic = none →
      (s.questionsOnCurrentTopic = none ∨ s.questionsOnCurrentTopic = some 0) ∧
      s.topicsDiscussed = [])

theorem inv_switchTopic (s : ConvState) (r : Nat) (hInv : ChatInv s)
    (hq : jsGe s.questionsOnCurrentTopic QUESTIONS_PER_TOPIC = true) :
    ChatInv (switchTopic s r) := by
  obtain ⟨q, hqe, hq10⟩ := jsGe_eq_true hq
  have h10 : 10 ≤ q := hq10
  refine ⟨?_, ?_, ?_⟩
  · intro t ht
    rw [switchTopic_topicsDiscussed] at ht
    exfalso
    have hcur := hInv.1 t ht
    have hle := hInv.2.1 q t hqe hcur
    rw [ht] at hle
    omega
  · intro q' c hq' _
    rw [switchTopic_counter] at hq'
    injection hq' with hq'e
    rw [← hq'e]
    exact Nat.zero_le _
  · intro hnone
    obtain ⟨c, hc⟩ := switchTopic_isSome s r
    rw [hc] at hnone
    cases hnone

theorem inv_withDefaultTopic (s : ConvState) (hInv : ChatInv s) : ChatInv (withDefaultTopic s) := by
  cases hcur : s.currentTopic with
  | some c => rw [withDefaultTopic_of_some s c hcur]; exact hInv
  | none =>
    obtain ⟨hq0, hnil⟩ := hInv.2.2 hcur
    rw [withDefaultTopic_of_none s hcur]
    refine ⟨?_, ?_, ?_⟩
    · intro t ht
      simp [hnil, count] at ht
    · intro q c hq _
      rcases hq0 with h | h
      · rw [h] at hq; cases hq
      · rw [h] at hq; injection hq with hh; rw [← hh]; exact Nat.zero_le _
    · intro hno; simp at hno

theorem inv_topicPhase (s : ConvState) (r : Nat) (hInv : ChatInv s) : ChatInv (topicPhase s r) := by
  unfold topicPhase
  cases hq : jsGe s.questionsOnCurrentTopic QUESTIONS_PER_TOPIC
  · rw [if_neg (by simp : ¬ (false = true))]
    exact inv_withDefaultTopic s hInv
  · rw [if_pos rfl]
    exact inv_withDefaultTopic _ (inv_switchTopic s r hInv hq)

theorem inv_trackPhase (s : ConvState) (c : String) (hc : s.currentTopic = some c)
    (hInv : ChatInv s) : ChatInv (trackPhase s) := by
  have hpush : (trackPhase s).topicsDiscussed = s.topicsDiscussed ++ [c] := by
    simp [trackPhase, hc]
  have hcur : (trackPhase s).currentTopic = s.currentTopic := rfl
  refine ⟨?_, ?_, ?_⟩
  · intro t ht
    rw [hpush, count_append_single] at ht
    by_cases hct : c = t
    · rw [hcur, hc, hct]
    · rw [if_neg hct] at ht
      rw [hcur]; exact hInv.1 t ht
  · intro q' c' hq' hc'
    rw [hcur, hc] at hc'
    injection hc' with hc'e
    subst hc'e
    have hqi : jsIncr s.questionsOnCurrentTopic = some q' := hq'
    cases hs : s.questionsOnCurrentTopic with
    | none => rw [hs] at hqi; cases hqi
    | some q0 =>
      rw [hs] at hqi
      simp only [jsIncr, Option.map_some', Option.some.injEq] at hqi
      have hle := hInv.2.1 q0 c hs hc
      rw [hpush, count_append_single, if_pos rfl]
      omega
  · intro hno
    rw [hcur, hc] at hno
    cases hno

theorem inv_greetPhase (s : ConvState) (hInv : ChatInv s) : ChatInv (greetPhase s) := by
  unfold greetPhase; split
  · exact hInv
  · exact hInv

theorem inv_chatStep (s : ConvState) (r : Nat) (hInv : ChatInv s) : ChatInv (chatStep s r).1 := by
  by_cases h : QUESTION_LIMIT ≤ s.questionCount
  · rw [chatStep_conclude s r h]
    exact hInv
  · rw [chatStep_go s r (Nat.lt_of_not_le h)]
    obtain ⟨c, hc⟩ := topicPhase_isSome s r
    exact inv_greetPhase _ (inv_trackPhase (topicPhase s r) c hc (inv_topicPhase s r hInv))

theorem inv_runChat (s : ConvState) (l : List Nat) (hInv : ChatInv s) : ChatInv (runChat s l) := by
  induction l generalizing s with
  | nil => exact hInv
  | cons r rs ih => exact ih _ (inv_chatStep s r hInv)

theorem inv_initV2 : ChatInv initConvStateV2 := by
  refine ⟨?_, ?_, ?_⟩
  · intro t ht; simp [initConvStateV2, count] at ht
  · intro q c hq hc; simp [initConvStateV2] at hc
  · intro _; exact ⟨Or.inr rfl, rfl⟩

theorem inv_initExpress : ChatInv initConvStateExpress := by
  refine ⟨?_, ?_, ?_⟩
  · intro t ht; simp [initConvStateExpress, count] at ht
  · intro q c hq hc; simp [initConvStateExpress] at hc
  · intro _; exact ⟨Or.inl rfl, rfl⟩

/-- Conversation states reachable by iterated /api/chat calls from either the
complete initial state (v2 /api/session/init, or the inline default of the
handlers) or the partial Express /api/session/init state. -/
def ReachableChat (s : ConvState) : Prop :=
  ∃ l : List Nat, runChat initConvStateV2 l = s ∨ runChat initConvStateExpress l = s

theorem reachable_inv (s : ConvState) (h : ReachableChat s) : ChatInv s := by
  obtain ⟨l, h | h⟩ := h
  · rw [← h]; exact inv_runChat _ l inv_initV2
  · rw [← h]; exact inv_runChat _ l inv_initExpress

theorem switchTopic_selects_uncovered (s : ConvState) (r : Nat) (hInv : ChatInv s)
    (hq : jsGe s.questionsOnCurrentTopic QUESTIONS_PER_TOPIC = true)
    (t0 : String) (ht0 : t0 ∈ TOPICS) (h0 : count t0 s.topicsDiscussed = 0) :
    ∃ c, (switchTopic s r).currentTopic = some c ∧ c ∈ TOPICS ∧
      count c s.topicsDiscussed = 0 := by
  have hmem : t0 ∈ availableTopics s := by
    simp [availableTopics, List.mem_filter, ht0, h0]
  have hne : availableTopics s ≠ [] := by
    intro hnil; rw [hnil] at hmem; cases hmem
  have hlen : 0 < (availableTopics s).length := List.length_pos.mpr hne
  refine ⟨(availableTopics s).getD (r % (availableTopics s).length) "", ?_, ?_⟩
  · unfold switchTopic; rw [if_pos hlen]
  · have hcmem : (availableTopics s).getD (r % (availableTopics s).length) "" ∈
        availableTopics s := getD_mem (Nat.mod_lt r hlen) ""
    obtain ⟨hcT, hclt⟩ := List.mem_filter.mp hcmem
    have hlt2 : count ((availableTopics s).getD (r % (availableTopics s).length) "")
        s.topicsDiscussed < 2 := of_decide_eq_true hclt
    refine ⟨hcT, ?_⟩
    by_cases h1 :
        count ((availableTopics s).getD (r % (availableTopics s).length) "")
          s.topicsDiscussed = 1
    · exfalso
      have hcur := hInv.1 _ h1
      obtain ⟨q, hqe, hq10⟩ := jsGe_eq_true hq
      have h10 : 10 ≤ q := hq10
      have hle := hInv.2.1 q _ hqe hcur
      omega
    · omega

theorem chatStep_switch_currentTopic (s : ConvState) (r : Nat)
    (hlim : s.questionCount < QUESTION_LIMIT)
    (hq : jsGe s.questionsOnCurrentTopic QUESTIONS_PER_TOPIC = true) :
    (chatStep s r).1.currentTopic = (switchTopic s r).currentTopic := by
  rw [chatStep_go s r hlim]
  show (greetPhase (trackPhase (topicPhase s r))).currentTopic = _
  rw [(greetPhase_core _).2.2.1]
  show (topicPhase s r).currentTopic = _
  rw [topicPhase_of_switch s r hq]

theorem switchTopic1_currentTopic (s : ConvState1) (r : Nat) :
    (switchTopic1 s r).currentTopic = (switchTopic1Pick s r).currentTopic := by
  unfold switchTopic1; split <;> rfl

theorem switchTopic1_selects_uncovered (s : ConvState1) (r : Nat)
    (t1 : String) (ht1 : t1 ∈ INTERVIEW_TOPICS)
    (h1 : s.topicsCovered.contains t1 = false) :
    ∃ c, (switchTopic1 s r).currentTopic = some c ∧ c ∈ INTERVIEW_TOPICS ∧
      s.topicsCovered.contains c = false := by
  have hmem : t1 ∈ uncoveredTopics s := by
    simp only [uncoveredTopics, List.mem_filter]
    exact ⟨ht1, by simpa using h1⟩
  have hne : uncoveredTopics s ≠ [] := by
    intro hnil; rw [hnil] at hmem; cases hmem
  have hlen : 0 < (uncoveredTopics s).length := List.length_pos.mpr hne
  refine ⟨(uncoveredTopics s).getD 0 "", ?_, ?_⟩
  · rw [switchTopic1_currentTopic]
    unfold switchTopic1Pick; rw [if_pos hlen]
  · have hcmem : (uncoveredTopics s).getD 0 "" ∈ uncoveredTopics s :=
      getD_mem hlen ""
    obtain ⟨hcT, hcu⟩ := List.mem_filter.mp hcmem
    exact ⟨hcT, by simpa using hcu⟩

theorem chatStep1_switch_currentTopic (s : ConvState1) (r : Nat)
    (hlim : s.questionCount < QUESTION_LIMIT)
    (hc : s.currentTopic = none ∨ QUESTIONS_PER_TOPIC ≤ s.questionsOnCurrentTopic) :
    (chatStep1 s r).1.currentTopic = (switchTopic1 s r).currentTopic := by
  rw [chatStep1_go s r hlim]
  show (topicPhase1 s r).currentTopic = _
  unfold topicPhase1; rw [if_pos hc]

theorem storeGet_storeDel {α : Type} (st : SessionStore α) (id : String) :
    storeGet (storeDel st id) id = none := by
  unfold storeGet storeDel
  rw [Option.map_eq_none']
  rw [List.find?_eq_none]
  intro p hp
  have hf := List.of_mem_filter hp
  simp at hf
  simp [hf]

theorem chatExpressHandler_absent (st : SessionStore Session) (id : String) (r : Nat)
    (h : storeGet st id = none) :
    chatExpressHandler st id r = (st, .chat (chatStep initConvStateV2 r).2) := by
  unfold chatExpressHandler; rw [h]

theorem trackExpressHandler_absent (st : SessionStore Session) (id : String)
    (m : Nat) (i : Bool) (h : storeGet st id = none) :
    trackExpressHandler st id m i = (st, .notFound) := by
  unfold trackExpressHandler; rw [h]

theorem reportExpressHandler_absent (st : SessionStore Session) (id : String)
    (g : Except Nat String) (p : String → Option JsonValue) (h : storeGet st id = none) :
    reportExpressHandler st id g p = (st, .notFound) := by
  unfold reportExpressHandler; rw [h]

theorem chat1Handler_absent (st : SessionStore Session1) (id : String) (r : Nat)
    (h : storeGet st id = none) : chat1Handler st id r = (st, .notFound) := by
  unfold chat1Handler; rw [h]

theorem track1Handler_absent (st : SessionStore Session1) (id : String) (m : Nat)
    (h : storeGet st id = none) : track1Handler st id m = (st, .notFound) := by
  unfold track1Handler; rw [h]

theorem report1Handler_absent (st : SessionStore Session1) (id : String)
    (g : Except Nat String) (p : String → Option JsonValue) (h : storeGet st id = none) :
    report1Handler st id g p = (st, .notFound) := by
  unfold report1Handler; rw [h]

theorem reportExpressHandler_present_ok (st : SessionStore Session) (id : String)
    (sess : Session) (text : String) (p : String → Option JsonValue)
    (h : storeGet st id = some sess) :
    reportExpressHandler st id (.ok text) p =
      (storeDel st id,
       .ok ((p (stripFences text)).getD fallbackAnalysis) sess.responses.length) := by
  unfold reportExpressHandler; rw [h]

theorem report1Handler_present_ok (st : SessionStore Session1) (id : String)
    (sess : Session1) (text : String) (p : String → Option JsonValue)
    (h : storeGet st id = some sess) :
    report1Handler st id (.ok text) p =
      (storeDel st id,
       .ok ((p (stripFences text)).getD fallbackAnalysis) sess.responses.length) := by
  unfold report1Handler; rw [h]

theorem reportExpressHandler_present_err (st : SessionStore Session) (id : String)
    (sess : Session) (code : Nat) (p : String → Option JsonValue)
    (h : storeGet st id = some sess) :
    reportExpressHandler st id (.error code) p = (st, .err code) := by
  unfold reportExpressHandler; rw [h]

theorem report1Handler_present_err (st : SessionStore Session1) (id : String)
    (sess : Session1) (code : Nat) (p : String → Option JsonValue)
    (h : storeGet st id = some sess) :
    report1Handler st id (.error code) p = (st, .err code) := by
  unfold report1Handler; rw [h]

theorem reportExpressHandler_ok_inv (st : SessionStore Session) (id : String)
    (g : Except Nat String) (p : String → Option JsonValue) (a : JsonValue) (n : Nat)
    (h : (reportExpressHandler st id g p).2 = .ok a n) :
    (reportExpressHandler st id g p).1 = storeDel st id := by
  cases hg : storeGet st id with
  | none => rw [reportExpressHandler_absent st id g p hg] at h; cases h
  | some sess =>
    cases g with
    | error code => rw [reportExpressHandler_present_err st id sess code p hg] at h; cases h
    | ok text => rw [reportExpressHandler_present_ok st id sess text p hg]

theorem report1Handler_ok_inv (st : SessionStore Session1) (id : String)
    (g : Except Nat String) (p : String → Option JsonValue) (a : JsonValue) (n : Nat)
    (h : (report1Handler st id g p).2 = .ok a n) :
    (report1Handler st id g p).1 = storeDel st id := by
  cases hg : storeGet st id with
  | none => rw [report1Handler_absent st id g p hg] at h; cases h
  | some sess =>
    cases g with
    | error code => rw [report1Handler_present_err st id sess code p hg] at h; cases h
    | ok text => rw [report1Handler_present_ok st id sess text p hg]

/-- Claim C1 counterexample: the v1 serverless conclusion branch (part_000
lines 240-253) persists the loaded conversation state exactly as it was
loaded.  The v1 state record carries no `shouldConclude` field at all, so the
claim that the handler "persists the state with shouldConclude set" is false
on this variant: nothing is marked on conclusion. -/
theorem serverless_conclusion_persists_unchanged :
    chatStep1
      { questionCount := 70, currentTopic := some "Economics & Development",
        questionsOnCurrentTopic := 3,
        topicsCovered := ["IFS Aspiration & Foreign Policy",
          "International Relations & Diplomacy", "Economics & Development"] } 0 =
      ({ questionCount := 70, currentTopic := some "Economics & Development",
         questionsOnCurrentTopic := 3,
         topicsCovered := ["IFS Aspiration & Foreign Policy",
           "International Relations & Diplomacy", "Economics & Development"] },
       ChatResult.concluded closingChoice) := by decide

/-- Claim C1 (amended): whenever the loaded conversation state has
`questionCount` at or above the limit of 70, /api/chat short-circuits for
every outcome of the random draw: it returns exactly the fixed
completion-shaped closing response with role assistant, the fixed closing
content and finish reason stop, runs no topic selection (no field of the
state other than `shouldConclude` changes, independent of the random draw),
and never reaches the gateway-contacting branch; the check precedes all topic
logic.  The Express/v2 handler persists the state with `shouldConclude` set;
the v1 serverless handler persists the loaded state unchanged, since its
state has no such flag. -/
theorem chat_conclusion_short_circuits (s : ConvState) (s1 : ConvState1) (r r1 : Nat)
    (h : QUESTION_LIMIT ≤ s.questionCount) (h1 : QUESTION_LIMIT ≤ s1.questionCount) :
    chatStep s r =
      ({ s with shouldConclude := true },
       ChatResult.concluded
         { role := "assistant", content := "Your interview is over, Tanya. Thank you.",
           finishReason := "stop" }) ∧
    chatStep1 s1 r1 =
      (s1,
       ChatResult.concluded
         { role := "assistant", content := "Your interview is over, Tanya. Thank you.",
           finishReason := "stop" }) :=
  ⟨chatStep_conclude s r h, chatStep1_conclude s1 r1 h1⟩

theorem chat_conclusion_short_circuits_witness :
    chatStep
      { hasGreeted := true, askedIntroduction := true, questionCount := 70,
        topicsDiscussed := [], currentTopic := some "ethics",
        questionsOnCurrentTopic := some 3, shouldConclude := false } 5 =
      ({ hasGreeted := true, askedIntroduction := true, questionCount := 70,
         topicsDiscussed := [], currentTopic := some "ethics",
         questionsOnCurrentTopic := some 3, shouldConclude := true },
       ChatResult.concluded
         { role := "assistant", content := "Your interview is over, Tanya. Thank you.",
           finishReason := "stop" }) ∧
    chatStep1
      { questionCount := 70, currentTopic := some "Economics & Development",
        questionsOnCurrentTopic := 4, topicsCovered := [] } 5 =
      ({ questionCount := 70, currentTopic := some "Economics & Development",
         questionsOnCurrentTopic := 4, topicsCovered := [] },
       ChatResult.concluded
         { role := "assistant", content := "Your interview is over, Tanya. Thank you.",
           finishReason := "stop" }) :=
  chat_conclusion_short_circuits _ _ 5 5 (by decide) (by decide)

/-- Claim C2: on any one session, each question-issuing /api/chat call raises
`questionCount` by exactly 1 and no call ever lowers it; a call returns the
fixed closing response instead of a question exactly when the loaded count has
reached the limit of 70, and hence on every call thereafter.  Consequently,
starting from a fresh session, after any k calls the count is min k 70: it
climbs 1, 2, ..., 70 and then stays at 70 while every further call concludes.
Both the Express/v2 transition and the v1 serverless transition are covered. -/
theorem chat_question_count_progression :
    (∀ (s : ConvState) (r : Nat), s.questionCount < QUESTION_LIMIT →
        (chatStep s r).2 = ChatResult.asked ∧
        (chatStep s r).1.questionCount = s.questionCount + 1) ∧
    (∀ (s : ConvState) (r : Nat), QUESTION_LIMIT ≤ s.questionCount →
        (chatStep s r).2 = ChatResult.concluded closingChoice ∧
        (chatStep s r).1.questionCount = s.questionCount) ∧
    (∀ (s : ConvState) (r : Nat), s.questionCount ≤ (chatStep s r).1.questionCount) ∧
    (∀ l : List Nat,
        (runChat initConvStateV2 l).questionCount = min l.length QUESTION_LIMIT) ∧
    (∀ (s : ConvState1) (r : Nat), s.questionCount < QUESTION_LIMIT →
        (chatStep1 s r).2 = ChatResult.asked ∧
        (chatStep1 s r).1.questionCount = s.questionCount + 1) ∧
    (∀ (s : ConvState1) (r : Nat), QUESTION_LIMIT ≤ s.questionCount →
        (chatStep1 s r).2 = ChatResult.concluded closingChoice ∧
        (chatStep1 s r).1.questionCount = s.questionCount) ∧
    (∀ (s : ConvState1) (r : Nat), s.questionCount ≤ (chatStep1 s r).1.questionCount) ∧
    (∀ l : List Nat,
        (runChat1 initConvState1 l).questionCount = min l.length QUESTION_LIMIT) := by
  refine ⟨?_, ?_, ?_, ?_, ?_, ?_, ?_, ?_⟩
  · intro s r h
    exact ⟨by rw [chatStep_go s r h], by rw [chatStep_count, if_pos h]⟩
  · intro s r h
    exact ⟨by rw [chatStep_conclude s r h], by rw [chatStep_count, if_neg (Nat.not_lt.mpr h)]⟩
  · intro s r
    rw [chatStep_count]; split <;> omega
  · intro l
    simpa [initConvStateV2] using runChat_questionCount initConvStateV2 l (by decide)
  · intro s r h
    exact ⟨by rw [chatStep1_go s r h], by rw [chatStep1_count, if_pos h]⟩
  · intro s r h
    exact ⟨by rw [chatStep1_conclude s r h],
           by rw [chatStep1_count, if_neg (Nat.not_lt.mpr h)]⟩
  · intro s r
    rw [chatStep1_count]; split <;> omega
  · intro l
    simpa [initConvState1] using runChat1_questionCount initConvState1 l (by decide)

theorem chat_question_count_progression_witness :
    ((chatStep initConvStateV2 0).2 = ChatResult.asked ∧
      (chatStep initConvStateV2 0).1.questionCount = initConvStateV2.questionCount + 1) ∧
    ((chatStep1 initConvState1 0).2 = ChatResult.asked ∧
      (chatStep1 initConvState1 0).1.questionCount = initConvState1.questionCount + 1) ∧
    (runChat initConvStateV2 [0, 1, 2]).questionCount = min [0, 1, 2].length QUESTION_LIMIT ∧
    (runChat1 initConvState1 [0]).questionCount = min [0].length QUESTION_LIMIT := by
  have h := chat_question_count_progression
  exact ⟨h.1 initConvStateV2 0 (by decide),
         h.2.2.2.2.1 initConvState1 0 (by decide),
         h.2.2.2.1 [0, 1, 2],
         h.2.2.2.2.2.2.2 [0]⟩

/-- Claim C3 counterexample: the Express /api/chat handler, called with a
session id that resolves to no stored session, does not return 404 — it
proceeds to serve a question from the inline default state and goes on to
contact the gateway (server.js lines 196-210 fall through silently). -/
theorem express_chat_missing_session_not_404 :
    chatExpressHandler ([] : SessionStore Session) "12345" 0 =
      ([], ApiResult.chat ChatResult.asked) ∧
    (chatExpressHandler ([] : SessionStore Session) "12345" 0).2 ≠ ApiResult.notFound := by
  constructor
  · decide
  · decide

/-- Claim C3 (amended): with a session id that does not resolve to a stored
session, /api/session/track and /api/session/report return 404 and leave the
store untouched in both variants, and the v1 serverless /api/chat does the
same; the Express /api/chat, however, does not return 404 — it serves a
question computed from the fresh default conversation state, still mutating
nothing (the state is never persisted for an unknown id). -/
theorem missing_session_behavior (st : SessionStore Session) (st1 : SessionStore Session1)
    (id id1 : String) (r r1 m m1 : Nat) (i : Bool)
    (g g1 : Except Nat String) (p p1 : String → Option JsonValue)
    (h : storeGet st id = none) (h1 : storeGet st1 id1 = none) :
    trackExpressHandler st id m i = (st, ApiResult.notFound) ∧
    reportExpressHandler st id g p = (st, ReportResult.notFound) ∧
    chatExpressHandler st id r = (st, ApiResult.chat (chatStep initConvStateV2 r).2) ∧
    chat1Handler st1 id1 r1 = (st1, ApiResult.notFound) ∧
    track1Handler st1 id1 m1 = (st1, ApiResult.notFound) ∧
    report1Handler st1 id1 g1 p1 = (st1, ReportResult.notFound) :=
  ⟨trackExpressHandler_absent st id m i h,
   reportExpressHandler_absent st id g p h,
   chatExpressHandler_absent st id r h,
   chat1Handler_absent st1 id1 r1 h1,
   track1Handler_absent st1 id1 m1 h1,
   report1Handler_absent st1 id1 g1 p1 h1⟩

theorem missing_session_behavior_witness :
    trackExpressHandler ([] : SessionStore Session) "9" 1 true = ([], ApiResult.notFound) ∧
    reportExpressHandler ([] : SessionStore Session) "9" (.error 500) (fun _ => none) =
      ([], ReportResult.notFound) ∧
    chatExpressHandler ([] : SessionStore Session) "9" 2 =
      ([], ApiResult.chat (chatStep initConvStateV2 2).2) ∧
    chat1Handler ([] : SessionStore Session1) "9" 0 = ([], ApiResult.notFound) ∧
    track1Handler ([] : SessionStore Session1) "9" 7 = ([], ApiResult.notFound) ∧
    report1Handler ([] : SessionStore Session1) "9" (.error 500) (fun _ => none) =
      ([], ReportResult.notFound) :=
  missing_session_behavior [] [] "9" "9" 2 0 1 7 true (.error 500) (.error 500)
    (fun _ => none) (fun _ => none) rfl rfl

/-- Claim C4, evidence of the code bug: from the partial conversation state
written by the Express /api/session/init (which omits
`questionsOnCurrentTopic`), the per-topic counter is undefined and the first
question turns it into NaN (modelled `none`); `NaN >= 10` is false, so a
topic switch is never forced.  After 11 questions all 11 are on
"aspirations", the counter is not a number in [0, 10], and no switch has
happened — although the per-topic limit is 10 and the Express server itself
advertises rotation every ~10 questions at startup (server.js line 675).  By
contrast, from the complete v1 initial state the counter stays in [0, 10] and
the 11th question forces a switch to the second catalog topic. -/
theorem express_topic_counter_never_switches :
    ((runChat initConvStateExpress (List.replicate 11 0)).questionsOnCurrentTopic = none ∧
     (runChat initConvStateExpress (List.replicate 11 0)).topicsDiscussed =
       List.replicate 11 "aspirations" ∧
     (runChat initConvStateExpress (List.replicate 11 0)).questionCount = 11) ∧
    ((runChat1 initConvState1 (List.replicate 11 0)).questionsOnCurrentTopic = 1 ∧
     (runChat1 initConvState1 (List.replicate 11 0)).currentTopic =
       some "International Relations & Diplomacy" ∧
     (runChat1 initConvState1 (List.replicate 11 0)).topicsCovered =
       ["IFS Aspiration & Foreign Policy", "International Relations & Diplomacy"]) := by
  exact ⟨⟨rfl, rfl, rfl⟩, ⟨rfl, rfl, rfl⟩⟩

/-- Claim C5: whenever a topic switch is performed while at least one catalog
topic has never appeared in the covered/discussed history, the newly selected
topic is one of those uncovered topics, for every outcome of the random
choice.  For the Express/v2 variant this holds on every reachable
conversation state: the `availableTopics` filter admits a topic that has
already been asked only when it has been asked at least twice, which cannot
happen before a switch on reachable states (invariant `ChatInv`).  The v1
serverless variant deterministically picks the first uncovered catalog topic. -/
theorem switch_prefers_uncovered_topics
    (s : ConvState) (r : Nat) (hs : ReachableChat s)
    (hlim : s.questionCount < QUESTION_LIMIT)
    (hq : jsGe s.questionsOnCurrentTopic QUESTIONS_PER_TOPIC = true)
    (t0 : String) (ht0 : t0 ∈ TOPICS) (h0 : count t0 s.topicsDiscussed = 0)
    (s1 : ConvState1) (r1 : Nat)
    (hlim1 : s1.questionCount < QUESTION_LIMIT)
    (hc1 : s1.currentTopic = none ∨ QUESTIONS_PER_TOPIC ≤ s1.questionsOnCurrentTopic)
    (t1 : String) (ht1 : t1 ∈ INTERVIEW_TOPICS)
    (h1 : s1.topicsCovered.contains t1 = false) :
    (∃ c, (chatStep s r).1.currentTopic = some c ∧ c ∈ TOPICS ∧
        count c s.topicsDiscussed = 0) ∧
    (∃ c, (chatStep1 s1 r1).1.currentTopic = some c ∧ c ∈ INTERVIEW_TOPICS ∧
        s1.topicsCovered.contains c = false) := by
  constructor
  · obtain ⟨c, hc, hcT, hc0⟩ :=
      switchTopic_selects_uncovered s r (reachable_inv s hs) hq t0 ht0 h0
    exact ⟨c, by rw [chatStep_switch_currentTopic s r hlim hq]; exact hc, hcT, hc0⟩
  · obtain ⟨c, hc, hcT, hcu⟩ := switchTopic1_selects_uncovered s1 r1 t1 ht1 h1
    exact ⟨c, by rw [chatStep1_switch_currentTopic s1 r1 hlim1 hc1]; exact hc, hcT, hcu⟩

theorem switch_prefers_uncovered_topics_witness :
    (∃ c, (chatStep (runChat initConvStateV2 (List.replicate 10 0)) 3).1.currentTopic =
        some c ∧ c ∈ TOPICS ∧
        count c (runChat initConvStateV2 (List.replicate 10 0)).topicsDiscussed = 0) ∧
    (∃ c, (chatStep1 initConvState1 0).1.currentTopic = some c ∧ c ∈ INTERVIEW_TOPICS ∧
        initConvState1.topicsCovered.contains c = false) :=
  switch_prefers_uncovered_topics
    (runChat initConvStateV2 (List.replicate 10 0)) 3
    ⟨List.replicate 10 0, Or.inl rfl⟩
    (by decide) (by decide) "economics" (by decide) (by decide)
    initConvState1 0 (by decide) (Or.inl rfl)
    "Economics & Development" (by decide) (by decide)

/-- Claim C6 counterexample: the very first /api/chat call on a fresh session
(with the complete initial state written by the v2 /api/session/init, which is
also the inline default of both handlers) activates the default topic
"aspirations", pushes it to the history and raises `questionsOnCurrentTopic`
from 0 to 1 — the opening turn does count as question 1 against the
aspirations per-topic budget, contradicting the claim that it leaves every
per-topic accounting unaffected. -/
theorem first_call_charges_topic_budget :
    (chatStep initConvStateV2 0).1.questionCount = 1 ∧
    (chatStep initConvStateV2 0).1.currentTopic = some "aspirations" ∧
    (chatStep initConvStateV2 0).1.questionsOnCurrentTopic = some 1 ∧
    (chatStep initConvStateV2 0).1.topicsDiscussed = ["aspirations"] := by decide

/-- Claim C6 (amended): the very first /api/chat call on a fresh session
raises `questionCount` from 0 to 1, marks the greeting as done, and — rather
than leaving topic accounting untouched — activates the default topic
"aspirations", appends it to the history, and counts the opening question
against that topic budget: `questionsOnCurrentTopic` becomes 1.  This holds
for every outcome of the random draw (no switch logic runs on the first
call). -/
theorem first_call_spec (r : Nat) :
    chatStep initConvStateV2 r =
      ({ hasGreeted := true, askedIntroduction := true, questionCount := 1,
         topicsDiscussed := ["aspirations"], currentTopic := some "aspirations",
         questionsOnCurrentTopic := some 1, shouldConclude := false },
       ChatResult.asked) := rfl

theorem first_call_spec_witness :
    chatStep initConvStateV2 9 =
      ({ hasGreeted := true, askedIntroduction := true, questionCount := 1,
         topicsDiscussed := ["aspirations"], currentTopic := some "aspirations",
         questionsOnCurrentTopic := some 1, shouldConclude := false },
       ChatResult.asked) :=
  first_call_spec 9

/-- Claim C7 counterexample: in the Express/v2 variant the current topic is
pushed onto the covered/discussed history on every question-issuing call, not
once per switch: two opening calls on a fresh session perform no topic switch
(the per-topic counter never reaches 10), yet the history gains two entries,
refuting "the history gains one entry per switch, recording each
activation". -/
theorem history_grows_without_switch :
    (runChat initConvStateV2 [0, 0]).topicsDiscussed = ["aspirations", "aspirations"] ∧
    (runChat initConvStateV2 [0, 0]).questionsOnCurrentTopic = some 2 := by decide

theorem switchTopic1_spec (s : ConvState1) (r : Nat) :
    ∃ c, (switchTopic1 s r).currentTopic = some c ∧
      (switchTopic1 s r).questionsOnCurrentTopic = 0 ∧
      (switchTopic1 s r).topicsCovered =
        (if s.topicsCovered.contains c = true then s.topicsCovered
         else s.topicsCovered ++ [c]) := by
  obtain ⟨c, hc⟩ : ∃ c, (switchTopic1Pick s r).currentTopic = some c := by
    unfold switchTopic1Pick; split
    · exact ⟨_, rfl⟩
    · exact ⟨_, rfl⟩
  have hpickQ : (switchTopic1Pick s r).questionsOnCurrentTopic = 0 := by
    unfold switchTopic1Pick; split <;> rfl
  have hpickT : (switchTopic1Pick s r).topicsCovered = s.topicsCovered := by
    unfold switchTopic1Pick; split <;> rfl
  refine ⟨c, ?_, ?_, ?_⟩
  · rw [switchTopic1_currentTopic]; exact hc
  · unfold switchTopic1; split
    · exact hpickQ
    · exact hpickQ
  · unfold switchTopic1
    cases hct : (switchTopic1Pick s r).topicsCovered.contains
        ((switchTopic1Pick s r).currentTopic.getD "") with
    | true =>
      rw [if_pos rfl, hpickT]
      have hceq : s.topicsCovered.contains c = true := by
        rw [hpickT, hc] at hct
        simpa using hct
      rw [if_pos hceq]
    | false =>
      rw [if_neg (by simp : ¬ (false = true))]
      have hceq : s.topicsCovered.contains c = false := by
        rw [hpickT, hc] at hct
        simpa using hct
      show (switchTopic1Pick s r).topicsCovered ++
          [(switchTopic1Pick s r).currentTopic.getD ""] = _
      rw [hpickT, hc, if_neg (by simpa using hceq)]
      rfl

/-- Claim C7 (amended): on every topic switch performed by /api/chat the
per-topic counter is reset to 0, and it is exactly 1 when the switching call
completes.  The history policies differ per variant and neither gains exactly
one entry per switch: the Express/v2 handler appends the current topic to
`topicsDiscussed` on every question-issuing call — the switching call appends
exactly the newly chosen topic, but non-switching calls append too — while
the v1 handler appends the newly chosen topic to `topicsCovered` during the
switch only when that topic is not already covered. -/
theorem switch_resets_and_appends (s : ConvState) (r : Nat) (s1 : ConvState1) (r1 : Nat)
    (hlim : s.questionCount < QUESTION_LIMIT)
    (hq : jsGe s.questionsOnCurrentTopic QUESTIONS_PER_TOPIC = true)
    (hlim1 : s1.questionCount < QUESTION_LIMIT)
    (hc1 : s1.currentTopic = none ∨ QUESTIONS_PER_TOPIC ≤ s1.questionsOnCurrentTopic) :
    (∃ c, (chatStep s r).1.currentTopic = some c ∧
        (chatStep s r).1.questionsOnCurrentTopic = some 1 ∧
        (chatStep s r).1.topicsDiscussed = s.topicsDiscussed ++ [c]) ∧
    (∃ c, (chatStep1 s1 r1).1.currentTopic = some c ∧
        (chatStep1 s1 r1).1.questionsOnCurrentTopic = 1 ∧
        (chatStep1 s1 r1).1.topicsCovered =
          (if s1.topicsCovered.contains c = true then s1.topicsCovered
           else s1.topicsCovered ++ [c])) := by
  constructor
  · obtain ⟨c, hc⟩ := switchTopic_isSome s r
    have htp : topicPhase s r = switchTopic s r := topicPhase_of_switch s r hq
    refine ⟨c, ?_, ?_, ?_⟩
    · rw [chatStep_switch_currentTopic s r hlim hq]; exact hc
    · rw [chatStep_go s r hlim]
      show (greetPhase (trackPhase (topicPhase s r))).questionsOnCurrentTopic = some 1
      rw [(greetPhase_core _).2.2.2]
      show jsIncr (topicPhase s r).questionsOnCurrentTopic = some 1
      rw [htp, switchTopic_counter]
      rfl
    · rw [chatStep_go s r hlim]
      show (greetPhase (trackPhase (topicPhase s r))).topicsDiscussed = _
      rw [(greetPhase_core _).2.1]
      show (topicPhase s r).topicsDiscussed ++ [(topicPhase s r).currentTopic.getD ""] = _
      rw [htp, switchTopic_topicsDiscussed, hc]
      rfl
  · obtain ⟨c, hcC, hcQ, hcT⟩ := switchTopic1_spec s1 r1
    have htp : topicPhase1 s1 r1 = switchTopic1 s1 r1 := by
      unfold topicPhase1; rw [if_pos hc1]
    refine ⟨c, ?_, ?_, ?_⟩
    · rw [chatStep1_switch_currentTopic s1 r1 hlim1 hc1]; exact hcC
    · rw [chatStep1_go s1 r1 hlim1]
      show (topicPhase1 s1 r1).questionsOnCurrentTopic + 1 = 1
      rw [htp, hcQ]
    · rw [chatStep1_go s1 r1 hlim1]
      show (topicPhase1 s1 r1).topicsCovered = _
      rw [htp, hcT]

theorem switch_resets_and_appends_witness :
    (∃ c, (chatStep (runChat initConvStateV2 (List.replicate 10 0)) 0).1.currentTopic =
        some c ∧
        (chatStep (runChat initConvStateV2 (List.replicate 10 0)) 0).1.questionsOnCurrentTopic =
          some 1 ∧
        (chatStep (runChat initConvStateV2 (List.replicate 10 0)) 0).1.topicsDiscussed =
          (runChat initConvStateV2 (List.replicate 10 0)).topicsDiscussed ++ [c]) ∧
    (∃ c, (chatStep1
        { questionCount := 10, currentTopic := some "IFS Aspiration & Foreign Policy",
          questionsOnCurrentTopic := 10,
          topicsCovered := ["IFS Aspiration & Foreign Policy"] } 0).1.currentTopic = some c ∧
        (chatStep1
          { questionCount := 10, currentTopic := some "IFS Aspiration & Foreign Policy",
            questionsOnCurrentTopic := 10,
            topicsCovered := ["IFS Aspiration & Foreign Policy"] } 0).1.questionsOnCurrentTopic = 1 ∧
        (chatStep1
          { questionCount := 10, currentTopic := some "IFS Aspiration & Foreign Policy",
            questionsOnCurrentTopic := 10,
            topicsCovered := ["IFS Aspiration & Foreign Policy"] } 0).1.topicsCovered =
          (if (["IFS Aspiration & Foreign Policy"] : List String).contains c = true then
            ["IFS Aspiration & Foreign Policy"]
           else ["IFS Aspiration & Foreign Policy"] ++ [c])) :=
  switch_resets_and_appends (runChat initConvStateV2 (List.replicate 10 0)) 0
    { questionCount := 10, currentTopic := some "IFS Aspiration & Foreign Policy",
      questionsOnCurrentTopic := 10, topicsCovered := ["IFS Aspiration & Foreign Policy"] } 0
    (by decide) (by decide) (by decide) (Or.inr (by decide))

/-- Claim C8 counterexample: the fallback is substituted only when the parse
step throws.  Fence-stripped gateway text that is valid JSON of the wrong
shape — here the empty JSON object, which `JSON.parse` accepts — is returned
to the caller as the critique unchanged: the result is not the fallback
object and does not have the expected critique shape (no scores at all), and
the session is deleted anyway.  This refutes "the operation substitutes the
exact fixed fallback critique object rather than failing, so the caller
always receives a well-formed critique". -/
theorem report_wrong_shape_passes_through :
    (reportExpressHandler
        [("1", { interests := [], responses := [9], interruptions := 0, conversationState := none })]
        "1" (.ok "\x7b\x7d") (fun _ => some (JsonValue.obj []))).2 =
      ReportResult.ok (JsonValue.obj []) 1 ∧
    hasCritiqueShape (JsonValue.obj []) = false ∧
    JsonValue.obj [] ≠ fallbackAnalysis ∧
    storeGet (reportExpressHandler
        [("1", { interests := [], responses := [9], interruptions := 0, conversationState := none })]
        "1" (.ok "\x7b\x7d") (fun _ => some (JsonValue.obj []))).1 "1" =
      (none : Option Session) := by
  refine ⟨rfl, rfl, ?_, rfl⟩
  intro h
  injection h with h2
  exact List.noConfusion h2

/-- Claim C8 (amended): in both variants, when the evaluation gateway call
succeeds, the critique returned to the caller is the parsed JSON value
whenever the parse step succeeds — whatever its shape — and the exact fixed
fallback object exactly when the parse step throws (the text is not valid
JSON after fence stripping, or the response-shape access fails inside the
try).  The caller is therefore guaranteed a well-formed critique only on the
throw path; the fallback itself, pinned character for character in
`fallbackAnalysis`, does have the five-category critique shape of the
prompt. -/
theorem report_fallback_only_on_parse_throw (st : SessionStore Session) (id : String)
    (sess : Session) (text : String) (parse : String → Option JsonValue)
    (st1 : SessionStore Session1) (id1 : String) (sess1 : Session1) (text1 : String)
    (parse1 : String → Option JsonValue)
    (h : storeGet st id = some sess) (h1 : storeGet st1 id1 = some sess1) :
    (reportExpressHandler st id (.ok text) parse).2 =
      ReportResult.ok ((parse (stripFences text)).getD fallbackAnalysis)
        sess.responses.length ∧
    (parse (stripFences text) = none →
      (reportExpressHandler st id (.ok text) parse).2 =
        ReportResult.ok fallbackAnalysis sess.responses.length) ∧
    (∀ j, parse (stripFences text) = some j →
      (reportExpressHandler st id (.ok text) parse).2 =
        ReportResult.ok j sess.responses.length) ∧
    (report1Handler st1 id1 (.ok text1) parse1).2 =
      ReportResult.ok ((parse1 (stripFences text1)).getD fallbackAnalysis)
        sess1.responses.length ∧
    (parse1 (stripFences text1) = none →
      (report1Handler st1 id1 (.ok text1) parse1).2 =
        ReportResult.ok fallbackAnalysis sess1.responses.length) ∧
    (∀ j, parse1 (stripFences text1) = some j →
      (report1Handler st1 id1 (.ok text1) parse1).2 =
        ReportResult.ok j sess1.responses.length) ∧
    hasCritiqueShape fallbackAnalysis = true := by
  have he := reportExpressHandler_present_ok st id sess text parse h
  have h1e := report1Handler_present_ok st1 id1 sess1 text1 parse1 h1
  refine ⟨by rw [he], ?_, ?_, by rw [h1e], ?_, ?_, rfl⟩
  · intro hp; rw [he, hp]; rfl
  · intro j hp; rw [he, hp]; rfl
  · intro hp; rw [h1e, hp]; rfl
  · intro j hp; rw [h1e, hp]; rfl

theorem report_fallback_only_on_parse_throw_witness :
    (reportExpressHandler
        [("1", { interests := [], responses := [3, 4], interruptions := 0, conversationState := none })]
        "1" (.ok "not json") (fun _ => none)).2 =
      ReportResult.ok fallbackAnalysis 2 ∧
    (report1Handler
        [("2", { interests := [], responses := [5], conversationState := none })]
        "2" (.ok "\x7b\x7d") (fun _ => some (JsonValue.obj []))).2 =
      ReportResult.ok (JsonValue.obj []) 1 :=
  ⟨(report_fallback_only_on_parse_throw
      [("1", { interests := [], responses := [3, 4], interruptions := 0, conversationState := none })] "1"
      { interests := [], responses := [3, 4], interruptions := 0, conversationState := none }
      "not json" (fun _ => none)
      [("2", { interests := [], responses := [5], conversationState := none })] "2"
      { interests := [], responses := [5], conversationState := none }
      "\x7b\x7d" (fun _ => some (JsonValue.obj [])) rfl rfl).2.1 rfl,
   (report_fallback_only_on_parse_throw
      [("1", { interests := [], responses := [3, 4], interruptions := 0, conversationState := none })] "1"
      { interests := [], responses := [3, 4], interruptions := 0, conversationState := none }
      "not json" (fun _ => none)
      [("2", { interests := [], responses := [5], conversationState := none })] "2"
      { interests := [], responses := [5], conversationState := none }
      "\x7b\x7d" (fun _ => some (JsonValue.obj [])) rfl rfl).2.2.2.2.2.1
     (JsonValue.obj []) rfl⟩

/-- Claim C9: a /api/session/report call that succeeds (returns a critique,
parsed or fallback) deletes the session from the store: the session id then
resolves to nothing, and every subsequent operation that looks the id up —
track and report in the Express variant; chat, track and report in the v1
serverless variant — returns 404 without mutating the store. -/
theorem report_consumes_session (st : SessionStore Session) (st1 : SessionStore Session1)
    (id id1 : String) (g g1 : Except Nat String) (p p1 : String → Option JsonValue)
    (a a1 : JsonValue) (n n1 m m1 r1 : Nat) (i : Bool)
    (h : (reportExpressHandler st id g p).2 = ReportResult.ok a n)
    (h1 : (report1Handler st1 id1 g1 p1).2 = ReportResult.ok a1 n1) :
    storeGet (reportExpressHandler st id g p).1 id = (none : Option Session) ∧
    trackExpressHandler (reportExpressHandler st id g p).1 id m i =
      ((reportExpressHandler st id g p).1, ApiResult.notFound) ∧
    reportExpressHandler (reportExpressHandler st id g p).1 id g p =
      ((reportExpressHandler st id g p).1, ReportResult.notFound) ∧
    storeGet (report1Handler st1 id1 g1 p1).1 id1 = (none : Option Session1) ∧
    chat1Handler (report1Handler st1 id1 g1 p1).1 id1 r1 =
      ((report1Handler st1 id1 g1 p1).1, ApiResult.notFound) ∧
    track1Handler (report1Handler st1 id1 g1 p1).1 id1 m1 =
      ((report1Handler st1 id1 g1 p1).1, ApiResult.notFound) ∧
    report1Handler (report1Handler st1 id1 g1 p1).1 id1 g1 p1 =
      ((report1Handler st1 id1 g1 p1).1, ReportResult.notFound) := by
  have hg : storeGet (reportExpressHandler st id g p).1 id = none := by
    rw [reportExpressHandler_ok_inv st id g p a n h]
    exact storeGet_storeDel st id
  have hg1 : storeGet (report1Handler st1 id1 g1 p1).1 id1 = none := by
    rw [report1Handler_ok_inv st1 id1 g1 p1 a1 n1 h1]
    exact storeGet_storeDel st1 id1
  exact ⟨hg, trackExpressHandler_absent _ _ m i hg, reportExpressHandler_absent _ _ g p hg,
         hg1, chat1Handler_absent _ _ r1 hg1, track1Handler_absent _ _ m1 hg1,
         report1Handler_absent _ _ g1 p1 hg1⟩

theorem report_consumes_session_witness :
    storeGet (reportExpressHandler [("1", { interests := [], responses := [3], interruptions := 0, conversationState := none })] "1" (.ok "x") (fun _ => none)).1 "1" = (none : Option Session) ∧
    trackExpressHandler (reportExpressHandler [("1", { interests := [], responses := [3], interruptions := 0, conversationState := none })] "1" (.ok "x") (fun _ => none)).1 "1" 4 false =
      ((reportExpressHandler [("1", { interests := [], responses := [3], interruptions := 0, conversationState := none })] "1" (.ok "x") (fun _ => none)).1, ApiResult.notFound) ∧
    storeGet (report1Handler [("2", { interests := [], responses := [], conversationState := none })] "2" (.ok "y") (fun _ => none)).1 "2" = (none : Option Session1) ∧
    chat1Handler (report1Handler [("2", { interests := [], responses := [], conversationState := none })] "2" (.ok "y") (fun _ => none)).1 "2" 0 =
      ((report1Handler [("2", { interests := [], responses := [], conversationState := none })] "2" (.ok "y") (fun _ => none)).1, ApiResult.notFound) := by
  have h := report_consumes_session
    [("1", { interests := [], responses := [3], interruptions := 0, conversationState := none })]
    [("2", { interests := [], responses := [], conversationState := none })]
    "1" "2" (.ok "x") (.ok "y") (fun _ => none) (fun _ => none)
    fallbackAnalysis fallbackAnalysis 1 0 4 9 0 false rfl rfl
  exact ⟨h.1, h.2.1, h.2.2.2.1, h.2.2.2.2.1⟩

/-- Claim C10: if the report-generation call to the evaluation gateway fails
(non-success status or thrown error), /api/session/report returns an error
with the store untouched — the session is not deleted and no stored state
changes — in both variants; moreover, in the Express variant the store can
change only on the success-or-fallback path: whenever the resulting store
differs from the input, the gateway returned success and the result is the
well-formed critique (parsed or fallback). -/
theorem report_gateway_failure_no_delete (st : SessionStore Session) (id : String)
    (sess : Session) (code : Nat) (p : String → Option JsonValue)
    (st1 : SessionStore Session1) (id1 : String) (sess1 : Session1) (code1 : Nat)
    (p1 : String → Option JsonValue)
    (h : storeGet st id = some sess) (h1 : storeGet st1 id1 = some sess1) :
    reportExpressHandler st id (.error code) p = (st, ReportResult.err code) ∧
    report1Handler st1 id1 (.error code1) p1 = (st1, ReportResult.err code1) ∧
    (∀ g : Except Nat String, (reportExpressHandler st id g p).1 ≠ st →
        ∃ text, g = .ok text ∧
          (reportExpressHandler st id g p).2 =
            ReportResult.ok ((p (stripFences text)).getD fallbackAnalysis)
              sess.responses.length) := by
  refine ⟨reportExpressHandler_present_err st id sess code p h,
          report1Handler_present_err st1 id1 sess1 code1 p1 h1, ?_⟩
  intro g hne
  cases g with
  | error c =>
    exact absurd (by rw [reportExpressHandler_present_err st id sess c p h]) hne
  | ok text =>
    exact ⟨text, rfl, by rw [reportExpressHandler_present_ok st id sess text p h]⟩

theorem report_gateway_failure_no_delete_witness :
    reportExpressHandler [("1", { interests := [], responses := [3], interruptions := 0, conversationState := none })] "1" (.error 500) (fun _ => none) =
      ([("1", { interests := [], responses := [3], interruptions := 0, conversationState := none })], ReportResult.err 500) ∧
    report1Handler [("2", { interests := [], responses := [], conversationState := none })] "2" (.error 500) (fun _ => none) =
      ([("2", { interests := [], responses := [], conversationState := none })], ReportResult.err 500) := by
  have h := report_gateway_failure_no_delete
    [("1", { interests := [], responses := [3], interruptions := 0, conversationState := none })] "1"
    { interests := [], responses := [3], interruptions := 0, conversationState := none }
    500 (fun _ => none)
    [("2", { interests := [], responses := [], conversationState := none })] "2"
    { interests := [], responses := [], conversationState := none }
    500 (fun _ => none) rfl rfl
  exact ⟨h.1, h.2.1⟩
